import Mathlib

/-!
Verification of rvi-jeeves (src/jeeves.py): a one-shot cron publisher that
resolves a named profile from a configuration file and publishes a single
message to a RabbitMQ queue.

The embedding models:
  * Python values produced by `ast.literal_eval` (`PyValue`, `literal_eval`),
  * `json.dumps` on such values (`jsonDumps`),
  * Python `int()` string conversion (`pyInt`),
  * `get_connection_info` (profile resolution, src/jeeves.py lines 104-170),
  * `publish_basic` (payload building and publish, lines 204-208),
  * the `__main__` control flow after the config file has been read
    (lines 229-236), as a trace of transport events (`jeeves_main`).

The transport library (pika) is external: connection open, channel creation,
publish and close are recorded as events rather than reimplemented.
-/

/-- The single-quote character `'` (written by code point to keep the file
plain ASCII-friendly). -/
def squote : Char := Char.ofNat 39

/-- The backslash character. -/
def bslash : Char := Char.ofNat 92

/-- Values of the restricted Python-literal universe handled by this program.
Models the results of `ast.literal_eval` for the literal forms relevant to
the configuration grammar: strings, integers, booleans, `None`, lists,
tuples and dicts.  (Python's float/complex/set literals and Python 2 octal
integer forms are outside this model; no claim exercises them.) -/
inductive PyValue where
  | pstr (s : String)
  | pint (n : Int)
  | pbool (b : Bool)
  | pnone
  | plist (items : List PyValue)
  | ptuple (items : List PyValue)
  | pdict (entries : List (PyValue × PyValue))

/-- Whether a value is a Python dict: the `type(msg_body) is dict` test of
src/jeeves.py line 206. -/
def PyValue.isDict : PyValue → Bool
  | .pdict _ => true
  | _ => false

/-- Drop leading ASCII whitespace from a character list. -/
def skipWs : List Char → List Char
  | [] => []
  | c :: cs => if c = ' ' ∨ c = Char.ofNat 9 ∨ c = Char.ofNat 10 ∨ c = Char.ofNat 13
               then skipWs cs else c :: cs

/-- Numeric value of a digit list (most significant first). -/
def digitsToNat : List Char → Nat
  | [] => 0
  | c :: cs => digitsToNat cs + c.toNat % 48 * 10 ^ cs.length

/-- A nonempty all-digit list read as a natural number. -/
def digitsVal (cs : List Char) : Option Nat :=
  match cs with
  | [] => Option.none
  | _ => if cs.all Char.isDigit then Option.some (digitsToNat cs) else Option.none

/-- Split off a maximal leading run of digits. -/
def takeDigits : List Char → (List Char × List Char)
  | [] => ([], [])
  | c :: cs =>
    if c.isDigit then
      let (ds, rest) := takeDigits cs
      (c :: ds, rest)
    else ([], c :: cs)

/-- Body of a Python string literal delimited by quote `q`, consuming the
closing quote.  Models the common escapes (`\n`, `\t`, `\r`, backslash and
quotes); an unknown escape keeps the backslash, as Python string literals
do.  `Option.none` on an unterminated literal. -/
def parseStrBody (q : Char) : Nat → List Char → Option (String × List Char)
  | 0, _ => Option.none
  | _, [] => Option.none
  | fuel + 1, c :: cs =>
    if c = q then Option.some ("", cs)
    else if c = bslash then
      match cs with
      | [] => Option.none
      | e :: cs2 =>
        let piece :=
          if e = 'n' then "\n"
          else if e = 't' then "\t"
          else if e = 'r' then "\r"
          else if e = bslash then String.singleton bslash
          else if e = squote ∨ e = '"' then String.singleton e
          else String.singleton bslash ++ String.singleton e
        (parseStrBody q fuel cs2).map (fun p => (piece ++ p.1, p.2))
    else
      (parseStrBody q fuel cs).map (fun p => (String.singleton c ++ p.1, p.2))

/-- Whether a parsed dict key is a hashable scalar literal.  Python's
`ast.literal_eval` raises on unhashable (list/dict) keys; tuple keys are
kept out of the model as well, since `json.dumps` then raises on them inside
the same call site (see `publish_basic`). -/
def scalarKey : PyValue → Bool
  | .pstr _ => true
  | .pint _ => true
  | .pbool _ => true
  | .pnone => true
  | _ => false

mutual

/-- One literal value, models `ast.literal_eval`'s grammar: quoted strings,
signed integers, `None`/`True`/`False`, lists, tuples (with Python's
parenthesized-expression special case) and dicts.  Returns the value and the
unconsumed input. -/
def parseValue : Nat → List Char → Option (PyValue × List Char)
  | 0, _ => Option.none
  | fuel + 1, cs0 =>
    match skipWs cs0 with
    | [] => Option.none
    | c :: rest =>
      if c = squote ∨ c = '"' then
        (parseStrBody c fuel rest).map (fun p => (PyValue.pstr p.1, p.2))
      else if c = '[' then
        (parseItems ']' fuel rest).map (fun p => (PyValue.plist p.1, p.2.2))
      else if c = '(' then
        (parseItems ')' fuel rest).map (fun p =>
          match p.1, p.2.1 with
          | [v], false => (v, p.2.2)
          | items, _ => (PyValue.ptuple items, p.2.2))
      else if c = '{' then
        (parseEntries fuel rest).map (fun p => (PyValue.pdict p.1, p.2))
      else if c = '-' ∨ c = '+' then
        match takeDigits (skipWs rest) with
        | ([], _) => Option.none
        | (ds, after) =>
          (digitsVal ds).map (fun n =>
            (PyValue.pint (if c = '-' then -(Int.ofNat n) else Int.ofNat n), after))
      else if c.isDigit then
        match takeDigits (c :: rest) with
        | (ds, after) => (digitsVal ds).map (fun n => (PyValue.pint (Int.ofNat n), after))
      else
        match c :: rest with
        | 'N' :: 'o' :: 'n' :: 'e' :: after => Option.some (PyValue.pnone, after)
        | 'T' :: 'r' :: 'u' :: 'e' :: after => Option.some (PyValue.pbool true, after)
        | 'F' :: 'a' :: 'l' :: 's' :: 'e' :: after => Option.some (PyValue.pbool false, after)
        | _ => Option.none

/-- Comma-separated values up to the closing bracket `close` (already past
the opening bracket).  Returns the items, whether a comma was seen (Python
distinguishes `(1)` from `(1,)`), and the input past the closing bracket.
Allows a trailing comma, as Python does. -/
def parseItems (close : Char) : Nat → List Char → Option (List PyValue × Bool × List Char)
  | 0, _ => Option.none
  | fuel + 1, cs =>
    match skipWs cs with
    | [] => Option.none
    | c :: rest =>
      if c = close then Option.some ([], false, rest)
      else
        match parseValue fuel (c :: rest) with
        | Option.none => Option.none
        | Option.some (v, cs2) =>
          match skipWs cs2 with
          | [] => Option.none
          | c2 :: rest2 =>
            if c2 = close then Option.some ([v], false, rest2)
            else if c2 = ',' then
              match parseItems close fuel rest2 with
              | Option.none => Option.none
              | Option.some (vs, _, r) => Option.some (v :: vs, true, r)
            else Option.none

/-- Comma-separated `key : value` entries of a dict literal up to the
closing brace (already past the opening brace); trailing comma allowed. -/
def parseEntries : Nat → List Char → Option (List (PyValue × PyValue) × List Char)
  | 0, _ => Option.none
  | fuel + 1, cs =>
    match skipWs cs with
    | [] => Option.none
    | c :: rest =>
      if c = '}' then Option.some ([], rest)
      else
        match parseValue fuel (c :: rest) with
        | Option.none => Option.none
        | Option.some (k, cs2) =>
          if scalarKey k then
            match skipWs cs2 with
            | ':' :: rest2 =>
              match parseValue fuel rest2 with
              | Option.none => Option.none
              | Option.some (v, cs3) =>
                match skipWs cs3 with
                | '}' :: r => Option.some ([(k, v)], r)
                | ',' :: rest3 =>
                  match parseEntries fuel rest3 with
                  | Option.none => Option.none
                  | Option.some (es, r) => Option.some ((k, v) :: es, r)
                | _ => Option.none
            | _ => Option.none
          else Option.none

end

/-- Model of Python's `ast.literal_eval` on a whole string: parse one
literal and require only whitespace to remain; `Option.none` models the
`ValueError`/`SyntaxError` raised on a malformed literal. -/
def literal_eval (s : String) : Option PyValue :=
  match parseValue (2 * s.length + 8) s.data with
  | Option.some (v, rest) =>
    match skipWs rest with
    | [] => Option.some v
    | _ => Option.none
  | Option.none => Option.none

/-- Lowercase hex digit of `n % 16`. -/
def hexDigit (n : Nat) : Char :=
  if n % 16 < 10 then Char.ofNat (48 + n % 16) else Char.ofNat (87 + n % 16)

/-- Four lowercase hex digits, as in JSON `\uXXXX` escapes. -/
def hex4 (n : Nat) : String :=
  String.mk [hexDigit (n / 4096), hexDigit (n / 256), hexDigit (n / 16), hexDigit n]

/-- JSON escaping of one character, following `json.dumps` defaults
(`ensure_ascii=True`): named escapes for the common controls, `\uXXXX` for
other controls and all non-ASCII, surrogate pairs beyond the BMP. -/
def jsonEscapeChar (c : Char) : String :=
  if c = '"' then String.mk [bslash, '"']
  else if c = bslash then String.mk [bslash, bslash]
  else if c = Char.ofNat 10 then String.mk [bslash, 'n']
  else if c = Char.ofNat 9 then String.mk [bslash, 't']
  else if c = Char.ofNat 13 then String.mk [bslash, 'r']
  else if c = Char.ofNat 8 then String.mk [bslash, 'b']
  else if c = Char.ofNat 12 then String.mk [bslash, 'f']
  else if c.toNat < 32 ∨ 126 < c.toNat then
    if c.toNat ≤ 65535 then String.mk [bslash, 'u'] ++ hex4 c.toNat
    else
      String.mk [bslash, 'u'] ++ hex4 (55296 + (c.toNat - 65536) / 1024) ++
      String.mk [bslash, 'u'] ++ hex4 (56320 + (c.toNat - 65536) % 1024)
  else String.singleton c

/-- A JSON string token: quoted and escaped. -/
def jsonQuote (s : String) : String :=
  "\"" ++ String.join (s.data.map jsonEscapeChar) ++ "\""

/-- JSON text of a dict key, with `json.dumps`'s key coercion: string keys
verbatim, int/bool/None keys stringified.  Container keys never reach this
point (`parseEntries` admits only scalar keys; Python raises there too). -/
def jsonKey : PyValue → String
  | .pstr s => jsonQuote s
  | .pint n => jsonQuote (toString n)
  | .pbool true => jsonQuote "true"
  | .pbool false => jsonQuote "false"
  | _ => jsonQuote "null"

mutual

/-- Model of `json.dumps` with default settings on the modelled value
universe: default separators (", " and ": "), tuples serialized as arrays. -/
def jsonDumps : PyValue → String
  | .pstr s => jsonQuote s
  | .pint n => toString n
  | .pbool true => "true"
  | .pbool false => "false"
  | .pnone => "null"
  | .plist items => "[" ++ jsonSeq items ++ "]"
  | .ptuple items => "[" ++ jsonSeq items ++ "]"
  | .pdict entries => "\x7b" ++ jsonEntries entries ++ "\x7d"

/-- Comma-joined JSON texts of array elements. -/
def jsonSeq : List PyValue → String
  | [] => ""
  | [v] => jsonDumps v
  | v :: vs => jsonDumps v ++ ", " ++ jsonSeq vs

/-- Comma-joined JSON texts of object entries. -/
def jsonEntries : List (PyValue × PyValue) → String
  | [] => ""
  | [(k, v)] => jsonKey k ++ ": " ++ jsonDumps v
  | (k, v) :: es => jsonKey k ++ ": " ++ jsonDumps v ++ ", " ++ jsonEntries es

end

/-- Model of Python's `int(s)`: strip surrounding whitespace, optional
sign, then a nonempty run of decimal digits; `Option.none` models the
`ValueError` on anything else (e.g. `int("abc")`, `int("")`). -/
def pyInt (s : String) : Option Int :=
  let cs := (skipWs ((skipWs s.data).reverse)).reverse
  match cs with
  | '+' :: ds => (digitsVal ds).map Int.ofNat
  | '-' :: ds => (digitsVal ds).map (fun n => -(Int.ofNat n))
  | ds => (digitsVal ds).map Int.ofNat

/-- A configuration section: per-key lookup, `Option.none` modelling
`ConfigParser.NoOptionError`.  Values are whatever the external
configuration store returns; `get_connection_info` applies no trimming or
re-interpretation of its own. -/
abbrev SectionMap := String → Option String

/-- A parsed configuration: per-section lookup, `Option.none` modelling
`ConfigParser.NoSectionError`. -/
abbrev Config := String → Option SectionMap

/-- The errors through which a run terminates, named after the Python
exceptions the source raises: `NoSectionError` from an unknown profile,
`ValueError` from `int()` on a bad port, `SystemExit` from the explicit
raise on a missing message body, and the `ValueError`/`SyntaxError` of
`ast.literal_eval` on a malformed literal (`payloadError`). -/
inductive RunError where
  | noSectionError (service : String)
  | valueError (badValue : String)
  | systemExit (msg : String)
  | payloadError (raw : String)
deriving DecidableEq

/-- The resolved connection dict built by `get_connection_info`
(src/jeeves.py lines 114-170): one field per `connection_info` key, with
`Option` for the three keys the source may set to Python `None`. -/
structure ConnectionInfo where
  rabbit_host : String
  rabbit_user : String
  rabbit_pass : String
  rabbit_vhost : String
  rabbit_port : Int
  rabbit_queue : Option String
  rabbit_exchange : Option String
  rabbit_routing_key : Option String
  rabbit_message_body : String
deriving DecidableEq

/-- Model of `get_connection_info` (src/jeeves.py lines 104-170): each
optional key is looked up and, on `NoOptionError`, defaulted
(`localhost`/`guest`/`guest`/`/`/`5672`) or set to `None`
(queue/exchange/routing key); `rabbit_port` goes through `int()`, whose
failure propagates as a `ValueError`; a missing `rabbit_message_body`
raises `SystemExit`.  A missing section propagates `NoSectionError` from
the first lookup, as the source's `except NoOptionError` does not catch
it. -/
def get_connection_info (config : Config) (service_name : String) :
    Except RunError ConnectionInfo :=
  match config service_name with
  | Option.none => Except.error (RunError.noSectionError service_name)
  | Option.some sec =>
    let host := (sec "rabbit_host").getD "localhost"
    let user := (sec "rabbit_user").getD "guest"
    let passwd := (sec "rabbit_pass").getD "guest"
    let vhost := (sec "rabbit_vhost").getD "/"
    let portRes : Except RunError Int :=
      match sec "rabbit_port" with
      | Option.none => Except.ok 5672
      | Option.some p =>
        match pyInt p with
        | Option.some n => Except.ok n
        | Option.none => Except.error (RunError.valueError p)
    match portRes with
    | Except.error e => Except.error e
    | Except.ok port =>
      match sec "rabbit_message_body" with
      | Option.none =>
        Except.error (RunError.systemExit
          "rabbit_message_body parameter missing from config and is required.")
      | Option.some body =>
        Except.ok
          { rabbit_host := host, rabbit_user := user, rabbit_pass := passwd,
            rabbit_vhost := vhost, rabbit_port := port,
            rabbit_queue := sec "rabbit_queue",
            rabbit_exchange := sec "rabbit_exchange",
            rabbit_routing_key := sec "rabbit_routing_key",
            rabbit_message_body := body }

/-- The calls a run makes into the external pika transport, in order:
`pika.BlockingConnection(...)` (`connectionOpen`), `connection.channel()`
(`channelCreate`), `channel.basic_publish(...)` (`publish`, with the body
as the Python value handed over) and `connection.close()`
(`connectionClose`). -/
inductive Event where
  | connectionOpen (host user passwd vhost : String) (port : Int)
  | channelCreate
  | publish (exchange : String) (routingKey : Option String) (body : PyValue)
  | connectionClose

/-- The body computation of `publish_basic` (src/jeeves.py lines 205-207):
`ast.literal_eval` the raw text, then `json.dumps` exactly when the result
is a dict; any other parsed value is used as the body unchanged. -/
def build_payload (raw : String) : Option PyValue :=
  (literal_eval raw).map (fun v => if v.isDict then PyValue.pstr (jsonDumps v) else v)

/-- Model of `publish_basic` (src/jeeves.py lines 204-208): build the body
from `rabbit_message_body` and issue one `basic_publish` with the empty
exchange and `rabbit_queue` as routing key (possibly Python `None`); a
malformed literal raises out of `ast.literal_eval`. -/
def publish_basic (info : ConnectionInfo) : Except RunError Event :=
  match build_payload info.rabbit_message_body with
  | Option.none => Except.error (RunError.payloadError info.rabbit_message_body)
  | Option.some body => Except.ok (Event.publish "" info.rabbit_queue body)

/-- What a run did: the transport calls it made, in order, and how it
ended (`Except.ok` for a clean process exit, `Except.error` for an
uncaught exception / `SystemExit`). -/
structure RunResult where
  events : List Event
  outcome : Except RunError Unit

/-- Model of the `__main__` flow after the config file has been read
(src/jeeves.py lines 229-236): resolve the profile, connect, open a
channel, and only under the basic flag (`-b`) publish, close and exit; without the
flag the script just falls off the end, closing nothing.  Errors abort the
run at the point they are raised, keeping the events already performed. -/
def jeeves_main (config : Config) (service : String) (basic : Bool) : RunResult :=
  match get_connection_info config service with
  | Except.error e => { events := [], outcome := Except.error e }
  | Except.ok info =>
    let opened : List Event :=
      [Event.connectionOpen info.rabbit_host info.rabbit_user info.rabbit_pass
         info.rabbit_vhost info.rabbit_port,
       Event.channelCreate]
    if basic then
      match publish_basic info with
      | Except.error e => { events := opened, outcome := Except.error e }
      | Except.ok pubEv =>
        { events := opened ++ [pubEv, Event.connectionClose],
          outcome := Except.ok () }
    else
      { events := opened, outcome := Except.ok () }

/-- Discriminator for connection-open events. -/
def Event.isOpen : Event → Bool
  | .connectionOpen .. => true
  | _ => false

/-- Discriminator for publish events. -/
def Event.isPublish : Event → Bool
  | .publish .. => true
  | _ => false

/-- Discriminator for connection-close events. -/
def Event.isClose : Event → Bool
  | .connectionClose => true
  | _ => false

/-- Number of connection-open calls in a trace. -/
def countOpens (es : List Event) : Nat := (es.filter Event.isOpen).length

/-- Number of publish calls in a trace. -/
def countPublishes (es : List Event) : Nat := (es.filter Event.isPublish).length

/-- Number of connection-close calls in a trace. -/
def countCloses (es : List Event) : Nat := (es.filter Event.isClose).length

/-- The spec's `ConfigurationError` taxonomy entry covers the resolution
failures (missing section, invalid port, missing required body); the
payload failure is the spec's `PayloadError`. -/
def RunError.isConfigError : RunError → Bool
  | .noSectionError _ => true
  | .valueError _ => true
  | .systemExit _ => true
  | .payloadError _ => false

/-- The one-character string holding a single quote. -/
def sqs : String := String.singleton squote

/-- The spec example body text `'hello'` (a quoted Python string literal). -/
def helloRaw : String := sqs ++ "hello" ++ sqs

/-- The spec example body text `{'a': 1}`. -/
def dictARaw : String := "\x7b" ++ sqs ++ "a" ++ sqs ++ ": 1\x7d"

/-- The spec example body text `{'task': 'sync'}`. -/
def taskRaw : String := "\x7b" ++ sqs ++ "task" ++ sqs ++ ": " ++ sqs ++ "sync" ++ sqs ++ "\x7d"

/-- A profile section holding only `rabbit_message_body`. -/
def bodyOnlySection (body : String) : SectionMap :=
  fun k => if k = "rabbit_message_body" then Option.some body else Option.none

/-- A configuration with a single named section. -/
def oneSectionConfig (service : String) (sec : SectionMap) : Config :=
  fun s => if s = service then Option.some sec else Option.none

/-- The spec's end-to-end profile: `rabbit_queue = jobs`,
`rabbit_message_body = {'task': 'sync'}`. -/
def jobsSection : SectionMap :=
  fun k =>
    if k = "rabbit_queue" then Option.some "jobs"
    else if k = "rabbit_message_body" then Option.some taskRaw
    else Option.none

/-- A profile section with a non-numeric port and a message body. -/
def abcPortSection : SectionMap :=
  fun k =>
    if k = "rabbit_port" then Option.some "abc"
    else if k = "rabbit_message_body" then Option.some "42"
    else Option.none

/-- A profile section with no keys at all. -/
def emptySection : SectionMap := fun _ => Option.none

/-- C1 counterexample: with `rabbit_message_body = "import os"` (not a valid
restricted literal) in basic mode, the run does fail with the payload error,
but only after one connection-open call has already happened — not zero as
the claim requires. -/
theorem C1_counterexample :
    literal_eval "import os" = Option.none ∧
    (jeeves_main (oneSectionConfig "svc" (bodyOnlySection "import os")) "svc" true).outcome
      = Except.error (RunError.payloadError "import os") ∧
    countOpens (jeeves_main (oneSectionConfig "svc" (bodyOnlySection "import os")) "svc" true).events
      = 1 :=
  ⟨rfl, rfl, rfl⟩

/-- C1 (amended): for every basic-mode run whose profile resolves but whose
`rabbit_message_body` is not a valid restricted literal, the run fails with
the payload error and performs no publish and no close — but the connection
has already been opened exactly once, because `ast.literal_eval` runs inside
`publish_basic`, after `connect_to_bus`. -/
theorem C1_payload_error_after_connect (config : Config) (service : String)
    (info : ConnectionInfo)
    (hres : get_connection_info config service = Except.ok info)
    (hbad : literal_eval info.rabbit_message_body = Option.none) :
    (jeeves_main config service true).outcome
      = Except.error (RunError.payloadError info.rabbit_message_body) ∧
    countOpens (jeeves_main config service true).events = 1 ∧
    countPublishes (jeeves_main config service true).events = 0 ∧
    countCloses (jeeves_main config service true).events = 0 := by
  simp [jeeves_main, hres, publish_basic, build_payload, hbad,
        countOpens, countPublishes, countCloses,
        Event.isOpen, Event.isPublish, Event.isClose]

/-- Witness for C1 at the concrete profile `rabbit_message_body = "import os"`. -/
theorem C1_payload_error_after_connect_witness :
    (jeeves_main (oneSectionConfig "svc" (bodyOnlySection "import os")) "svc" true).outcome
      = Except.error (RunError.payloadError "import os") ∧
    countOpens (jeeves_main (oneSectionConfig "svc" (bodyOnlySection "import os")) "svc" true).events = 1 ∧
    countPublishes (jeeves_main (oneSectionConfig "svc" (bodyOnlySection "import os")) "svc" true).events = 0 ∧
    countCloses (jeeves_main (oneSectionConfig "svc" (bodyOnlySection "import os")) "svc" true).events = 0 :=
  C1_payload_error_after_connect (oneSectionConfig "svc" (bodyOnlySection "import os")) "svc"
    ⟨"localhost", "guest", "guest", "/", 5672, Option.none, Option.none, Option.none, "import os"⟩
    rfl rfl

/-- C2 counterexample: basic-mode run on a profile with `rabbit_message_body`
but no `rabbit_queue`: no error of any kind is raised (outcome is a clean
exit), a connection is opened, and `basic_publish` is invoked with the
routing key unset (Python `None`) — contradicting "fails with a
ConfigurationError before any connection is attempted". -/
theorem C2_counterexample :
    (jeeves_main (oneSectionConfig "svc" (bodyOnlySection "42")) "svc" true).outcome
      = Except.ok () ∧
    countOpens (jeeves_main (oneSectionConfig "svc" (bodyOnlySection "42")) "svc" true).events = 1 ∧
    (jeeves_main (oneSectionConfig "svc" (bodyOnlySection "42")) "svc" true).events
      = [Event.connectionOpen "localhost" "guest" "guest" "/" 5672,
         Event.channelCreate,
         Event.publish "" Option.none (PyValue.pint 42),
         Event.connectionClose] :=
  ⟨rfl, rfl, rfl⟩

/-- C2 (amended): for every basic-mode run whose profile resolves with no
`rabbit_queue` key and whose body parses, no ConfigurationError is raised:
the connection is opened and the publish capability is invoked with the
routing key unset (`None`), exactly as `publish_basic` dereferences the
missing key. -/
theorem C2_unset_queue_publishes_none (config : Config) (service : String)
    (info : ConnectionInfo) (v : PyValue)
    (hres : get_connection_info config service = Except.ok info)
    (hq : info.rabbit_queue = Option.none)
    (hv : literal_eval info.rabbit_message_body = Option.some v) :
    (jeeves_main config service true).outcome = Except.ok () ∧
    countOpens (jeeves_main config service true).events = 1 ∧
    (jeeves_main config service true).events
      = [Event.connectionOpen info.rabbit_host info.rabbit_user info.rabbit_pass
           info.rabbit_vhost info.rabbit_port,
         Event.channelCreate,
         Event.publish "" Option.none (if v.isDict then PyValue.pstr (jsonDumps v) else v),
         Event.connectionClose] := by
  simp [jeeves_main, hres, publish_basic, build_payload, hv, hq,
        countOpens, Event.isOpen]

/-- Witness for C2 at the concrete profile with only `rabbit_message_body = "42"`. -/
theorem C2_unset_queue_publishes_none_witness :
    (jeeves_main (oneSectionConfig "svc" (bodyOnlySection "42")) "svc" true).outcome
      = Except.ok () ∧
    countOpens (jeeves_main (oneSectionConfig "svc" (bodyOnlySection "42")) "svc" true).events = 1 ∧
    (jeeves_main (oneSectionConfig "svc" (bodyOnlySection "42")) "svc" true).events
      = [Event.connectionOpen "localhost" "guest" "guest" "/" 5672,
         Event.channelCreate,
         Event.publish "" Option.none (PyValue.pint 42),
         Event.connectionClose] :=
  C2_unset_queue_publishes_none (oneSectionConfig "svc" (bodyOnlySection "42")) "svc"
    ⟨"localhost", "guest", "guest", "/", 5672, Option.none, Option.none, Option.none, "42"⟩
    (PyValue.pint 42) rfl rfl rfl

/-- C3 counterexample: the body text `"42"` parses to the integer 42, and the
body handed to `basic_publish` is that raw integer, not the text `42` — the
source stringifies only dicts, everything else is passed through unchanged. -/
theorem C3_counterexample :
    build_payload "42" = Option.some (PyValue.pint 42) ∧
    ¬ build_payload "42" = Option.some (PyValue.pstr "42") := by
  refine ⟨rfl, fun h => ?_⟩
  rw [show build_payload "42" = Option.some (PyValue.pint 42) from rfl] at h
  exact PyValue.noConfusion (Option.some.inj h)

/-- C3 (amended): a mapping body is serialized to its canonical JSON text and
a string literal yields its content with no surrounding quotes, as claimed;
but every other parsed kind (number, boolean, null, sequence) is used as the
body unchanged — the raw parsed value, not its textual form. -/
theorem C3_payload_kinds :
    build_payload helloRaw = Option.some (PyValue.pstr "hello") ∧
    build_payload dictARaw = Option.some (PyValue.pstr "\x7b\"a\": 1\x7d") ∧
    build_payload "42" = Option.some (PyValue.pint 42) ∧
    (∀ raw es, literal_eval raw = Option.some (PyValue.pdict es) →
      build_payload raw = Option.some (PyValue.pstr (jsonDumps (PyValue.pdict es)))) ∧
    (∀ raw v, literal_eval raw = Option.some v → v.isDict = false →
      build_payload raw = Option.some v) := by
  refine ⟨rfl, rfl, rfl, ?_, ?_⟩
  · intro raw es h
    simp [build_payload, h, PyValue.isDict]
  · intro raw v h hd
    simp [build_payload, h, hd]

/-- Witness for C3's quantified parts, at the dict body `{'a': 1}` and the
string body `'hello'`. -/
theorem C3_payload_kinds_witness :
    build_payload dictARaw
      = Option.some (PyValue.pstr (jsonDumps (PyValue.pdict [(PyValue.pstr "a", PyValue.pint 1)]))) ∧
    build_payload helloRaw = Option.some (PyValue.pstr "hello") :=
  ⟨C3_payload_kinds.2.2.2.1 dictARaw [(PyValue.pstr "a", PyValue.pint 1)] rfl,
   C3_payload_kinds.2.2.2.2 helloRaw (PyValue.pstr "hello") rfl rfl⟩

/-- C4: a profile section in which only `rabbit_message_body` is present
resolves successfully to exactly the documented defaults — host
`localhost`, user `guest`, password `guest`, vhost `/`, port 5672 — with
queue, exchange and routing key each resolved to the explicit unset marker
(Python `None`). -/
theorem C4_defaults (config : Config) (service body : String) (sec : SectionMap)
    (hsec : config service = Option.some sec)
    (hbody : sec "rabbit_message_body" = Option.some body)
    (hhost : sec "rabbit_host" = Option.none)
    (huser : sec "rabbit_user" = Option.none)
    (hpass : sec "rabbit_pass" = Option.none)
    (hvhost : sec "rabbit_vhost" = Option.none)
    (hport : sec "rabbit_port" = Option.none)
    (hqueue : sec "rabbit_queue" = Option.none)
    (hexch : sec "rabbit_exchange" = Option.none)
    (hrkey : sec "rabbit_routing_key" = Option.none) :
    get_connection_info config service = Except.ok
      { rabbit_host := "localhost", rabbit_user := "guest", rabbit_pass := "guest",
        rabbit_vhost := "/", rabbit_port := 5672,
        rabbit_queue := Option.none, rabbit_exchange := Option.none,
        rabbit_routing_key := Option.none, rabbit_message_body := body } := by
  simp [get_connection_info, hsec, hbody, hhost, huser, hpass, hvhost, hport,
        hqueue, hexch, hrkey]

/-- Witness for C4 at the concrete section holding only
`rabbit_message_body = "42"`. -/
theorem C4_defaults_witness :
    get_connection_info (oneSectionConfig "svc" (bodyOnlySection "42")) "svc" = Except.ok
      { rabbit_host := "localhost", rabbit_user := "guest", rabbit_pass := "guest",
        rabbit_vhost := "/", rabbit_port := 5672,
        rabbit_queue := Option.none, rabbit_exchange := Option.none,
        rabbit_routing_key := Option.none, rabbit_message_body := "42" } :=
  C4_defaults (oneSectionConfig "svc" (bodyOnlySection "42")) "svc" "42"
    (bodyOnlySection "42") rfl rfl rfl rfl rfl rfl rfl rfl rfl rfl

/-- C5: a profile section with no `rabbit_message_body` key makes resolution
fail with a configuration error (the explicit `SystemExit` raise, or the
port `ValueError` if that key is also bad), and the run — basic mode or not
— performs no transport call at all. -/
theorem C5_missing_body_fatal (config : Config) (service : String) (sec : SectionMap)
    (basic : Bool)
    (hsec : config service = Option.some sec)
    (hbody : sec "rabbit_message_body" = Option.none) :
    (∃ e, get_connection_info config service = Except.error e ∧
          e.isConfigError = true ∧
          (jeeves_main config service basic).outcome = Except.error e) ∧
    (jeeves_main config service basic).events = [] := by
  have hres : ∃ e, get_connection_info config service = Except.error e ∧
      e.isConfigError = true := by
    cases hp : sec "rabbit_port" with
    | none =>
      exact ⟨RunError.systemExit
               "rabbit_message_body parameter missing from config and is required.",
             by simp [get_connection_info, hsec, hp, hbody], rfl⟩
    | some p =>
      cases hpi : pyInt p with
      | none =>
        exact ⟨RunError.valueError p,
               by simp [get_connection_info, hsec, hp, hpi], rfl⟩
      | some n =>
        exact ⟨RunError.systemExit
                 "rabbit_message_body parameter missing from config and is required.",
               by simp [get_connection_info, hsec, hp, hpi, hbody], rfl⟩
  obtain ⟨e, he, hce⟩ := hres
  refine ⟨⟨e, he, hce, ?_⟩, ?_⟩ <;> simp [jeeves_main, he]

/-- Witness for C5 at the empty section, basic mode. -/
theorem C5_missing_body_fatal_witness :
    (∃ e, get_connection_info (oneSectionConfig "svc" emptySection) "svc" = Except.error e ∧
          e.isConfigError = true ∧
          (jeeves_main (oneSectionConfig "svc" emptySection) "svc" true).outcome
            = Except.error e) ∧
    (jeeves_main (oneSectionConfig "svc" emptySection) "svc" true).events = [] :=
  C5_missing_body_fatal (oneSectionConfig "svc" emptySection) "svc" emptySection true rfl rfl

/-- C6: a profile whose `rabbit_port` value is present but not convertible by
Python's `int()` makes resolution fail with the conversion `ValueError`
(never the silent default 5672), and the run performs no transport call. -/
theorem C6_bad_port_error (config : Config) (service : String) (sec : SectionMap)
    (p : String) (basic : Bool)
    (hsec : config service = Option.some sec)
    (hport : sec "rabbit_port" = Option.some p)
    (hbad : pyInt p = Option.none) :
    get_connection_info config service = Except.error (RunError.valueError p) ∧
    (jeeves_main config service basic).events = [] := by
  have he : get_connection_info config service = Except.error (RunError.valueError p) := by
    simp [get_connection_info, hsec, hport, hbad]
  exact ⟨he, by simp [jeeves_main, he]⟩

/-- Witness for C6 at the concrete section with `rabbit_port = "abc"`
(and `pyInt "abc" = none` discharged by evaluation). -/
theorem C6_bad_port_error_witness :
    get_connection_info (oneSectionConfig "svc" abcPortSection) "svc"
      = Except.error (RunError.valueError "abc") ∧
    (jeeves_main (oneSectionConfig "svc" abcPortSection) "svc" true).events = [] :=
  C6_bad_port_error (oneSectionConfig "svc" abcPortSection) "svc" abcPortSection
    "abc" true rfl rfl rfl

/-- C7: the spec's end-to-end scenario.  On the profile
`rabbit_queue = jobs`, `rabbit_message_body = {'task': 'sync'}` in basic
mode, the run opens the connection once, creates the channel, issues exactly
one publish — empty exchange, routing key `jobs`, body the JSON text
`{"task": "sync"}` — and closes the connection exactly once, exiting
cleanly. -/
theorem C7_end_to_end :
    jeeves_main (oneSectionConfig "svc" jobsSection) "svc" true =
      { events := [Event.connectionOpen "localhost" "guest" "guest" "/" 5672,
                   Event.channelCreate,
                   Event.publish "" (Option.some "jobs")
                     (PyValue.pstr "\x7b\"task\": \"sync\"\x7d"),
                   Event.connectionClose],
        outcome := Except.ok () } ∧
    countOpens (jeeves_main (oneSectionConfig "svc" jobsSection) "svc" true).events = 1 ∧
    countPublishes (jeeves_main (oneSectionConfig "svc" jobsSection) "svc" true).events = 1 ∧
    countCloses (jeeves_main (oneSectionConfig "svc" jobsSection) "svc" true).events = 1 :=
  ⟨rfl, rfl, rfl, rfl⟩

/-- C8 counterexample: a run without the basic flag opens a connection and
ends with zero close calls — the connection is not released on that exit
path (there is no scoped acquisition in the source; `close()` is only
inside the `if args.basic:` branch). -/
theorem C8_counterexample :
    countOpens (jeeves_main (oneSectionConfig "svc" jobsSection) "svc" false).events = 1 ∧
    countCloses (jeeves_main (oneSectionConfig "svc" jobsSection) "svc" false).events = 0 ∧
    (jeeves_main (oneSectionConfig "svc" jobsSection) "svc" false).outcome = Except.ok () :=
  ⟨rfl, rfl, rfl⟩

/-- C8 (amended): the connection is closed exactly once on the successful
basic-publish path only; a run without the basic flag, and a basic run whose
body literal is malformed, open the connection and end without any close
call. -/
theorem C8_close_only_on_basic_success (config : Config) (service : String)
    (info : ConnectionInfo)
    (hres : get_connection_info config service = Except.ok info) :
    (countOpens (jeeves_main config service false).events = 1 ∧
     countCloses (jeeves_main config service false).events = 0) ∧
    (literal_eval info.rabbit_message_body = Option.none →
      countOpens (jeeves_main config service true).events = 1 ∧
      countCloses (jeeves_main config service true).events = 0) ∧
    (∀ v, literal_eval info.rabbit_message_body = Option.some v →
      countOpens (jeeves_main config service true).events = 1 ∧
      countCloses (jeeves_main config service true).events = 1) := by
  refine ⟨?_, fun hbad => ?_, fun v hv => ?_⟩ <;>
    simp [jeeves_main, hres, publish_basic, build_payload, *,
          countOpens, countCloses, Event.isOpen, Event.isClose]

/-- Witness for C8 at the jobs profile: non-basic run never closes; the
basic run with the well-formed dict body closes once. -/
theorem C8_close_only_on_basic_success_witness :
    (countOpens (jeeves_main (oneSectionConfig "svc" jobsSection) "svc" false).events = 1 ∧
     countCloses (jeeves_main (oneSectionConfig "svc" jobsSection) "svc" false).events = 0) ∧
    (countOpens (jeeves_main (oneSectionConfig "svc" jobsSection) "svc" true).events = 1 ∧
     countCloses (jeeves_main (oneSectionConfig "svc" jobsSection) "svc" true).events = 1) :=
  ⟨(C8_close_only_on_basic_success (oneSectionConfig "svc" jobsSection) "svc"
      ⟨"localhost", "guest", "guest", "/", 5672, Option.some "jobs",
       Option.none, Option.none, taskRaw⟩ rfl).1,
   (C8_close_only_on_basic_success (oneSectionConfig "svc" jobsSection) "svc"
      ⟨"localhost", "guest", "guest", "/", 5672, Option.some "jobs",
       Option.none, Option.none, taskRaw⟩ rfl).2.2
     (PyValue.pdict [(PyValue.pstr "task", PyValue.pstr "sync")]) rfl⟩

/-- C9: present optional keys are used verbatim, empty strings included: a
section in which every key is present with an arbitrary value (and the port
text converts) resolves to exactly those values — nothing is trimmed, no
default or unset marker is substituted for a present key; and a present but
empty `rabbit_port` is fed to `int()` verbatim and fails rather than
defaulting. -/
theorem C9_verbatim (config : Config) (service : String) (sec : SectionMap)
    (vh vu vp vv pv vq ve vr vb : String) (n : Int)
    (hsec : config service = Option.some sec)
    (hh : sec "rabbit_host" = Option.some vh)
    (hu : sec "rabbit_user" = Option.some vu)
    (hp : sec "rabbit_pass" = Option.some vp)
    (hv : sec "rabbit_vhost" = Option.some vv)
    (hpo : sec "rabbit_port" = Option.some pv)
    (hq : sec "rabbit_queue" = Option.some vq)
    (he : sec "rabbit_exchange" = Option.some ve)
    (hr : sec "rabbit_routing_key" = Option.some vr)
    (hb : sec "rabbit_message_body" = Option.some vb)
    (hn : pyInt pv = Option.some n) :
    get_connection_info config service = Except.ok
      { rabbit_host := vh, rabbit_user := vu, rabbit_pass := vp,
        rabbit_vhost := vv, rabbit_port := n,
        rabbit_queue := Option.some vq, rabbit_exchange := Option.some ve,
        rabbit_routing_key := Option.some vr, rabbit_message_body := vb } ∧
    (∀ (config2 : Config) (service2 : String) (sec2 : SectionMap),
      config2 service2 = Option.some sec2 →
      sec2 "rabbit_port" = Option.some "" →
      get_connection_info config2 service2 = Except.error (RunError.valueError "")) := by
  constructor
  · simp [get_connection_info, hsec, hh, hu, hp, hv, hpo, hq, he, hr, hb, hn]
  · intro config2 service2 sec2 hsec2 hport2
    have hpe : pyInt "" = Option.none := rfl
    simp [get_connection_info, hsec2, hport2, hpe]

/-- A section in which every key is present with the empty string except the
port, which is `"5672"`. -/
def allEmptySection : SectionMap :=
  fun k => if k = "rabbit_port" then Option.some "5672" else Option.some ""

/-- A section whose `rabbit_port` is present with the empty string. -/
def emptyPortSection : SectionMap :=
  fun k => if k = "rabbit_port" then Option.some ""
           else if k = "rabbit_message_body" then Option.some "42"
           else Option.none

/-- Witness for C9 at a section whose string keys all hold the empty string:
every empty value is kept verbatim, and the empty port text fails
conversion rather than defaulting. -/
theorem C9_verbatim_witness :
    (get_connection_info (oneSectionConfig "svc" allEmptySection) "svc" = Except.ok
      { rabbit_host := "", rabbit_user := "", rabbit_pass := "",
        rabbit_vhost := "", rabbit_port := 5672,
        rabbit_queue := Option.some "", rabbit_exchange := Option.some "",
        rabbit_routing_key := Option.some "", rabbit_message_body := "" } ∧
    (∀ (config2 : Config) (service2 : String) (sec2 : SectionMap),
      config2 service2 = Option.some sec2 →
      sec2 "rabbit_port" = Option.some "" →
      get_connection_info config2 service2 = Except.error (RunError.valueError ""))) ∧
    get_connection_info (oneSectionConfig "svc" emptyPortSection) "svc"
      = Except.error (RunError.valueError "") :=
  have h := C9_verbatim (oneSectionConfig "svc" allEmptySection) "svc" allEmptySection
    "" "" "" "" "5672" "" "" "" "" 5672 rfl rfl rfl rfl rfl rfl rfl rfl rfl rfl rfl
  ⟨h, h.2 (oneSectionConfig "svc" emptyPortSection) "svc" emptyPortSection rfl rfl⟩

/-- C10: a run invoked without the basic flag still resolves the profile and
performs the connection-open and channel-create calls, then exits cleanly
with no publish and no close. -/
theorem C10_no_basic (config : Config) (service : String)
    (info : ConnectionInfo)
    (hres : get_connection_info config service = Except.ok info) :
    jeeves_main config service false =
      { events := [Event.connectionOpen info.rabbit_host info.rabbit_user info.rabbit_pass
                     info.rabbit_vhost info.rabbit_port,
                   Event.channelCreate],
        outcome := Except.ok () } ∧
    countPublishes (jeeves_main config service false).events = 0 ∧
    countCloses (jeeves_main config service false).events = 0 := by
  simp [jeeves_main, hres, countPublishes, countCloses, Event.isPublish, Event.isClose]

/-- Witness for C10 at the jobs profile. -/
theorem C10_no_basic_witness :
    jeeves_main (oneSectionConfig "svc" jobsSection) "svc" false =
      { events := [Event.connectionOpen "localhost" "guest" "guest" "/" 5672,
                   Event.channelCreate],
        outcome := Except.ok () } ∧
    countPublishes (jeeves_main (oneSectionConfig "svc" jobsSection) "svc" false).events = 0 ∧
    countCloses (jeeves_main (oneSectionConfig "svc" jobsSection) "svc" false).events = 0 :=
  C10_no_basic (oneSectionConfig "svc" jobsSection) "svc"
    ⟨"localhost", "guest", "guest", "/", 5672, Option.some "jobs",
     Option.none, Option.none, taskRaw⟩ rfl
